import Mathlib

/-!
Verification development for the auto-click-check-move repository.

The repository contains three near-identical variants of one control loop:
  * `src/main.ts`            — Deno/TypeScript, modelled in namespace `MainTs`
  * `src/unnamed/part_000`   — Deno/TypeScript, modelled in namespace `Part000`
  * `src/auto_click_check_move.sh` — bash, modelled in namespace `Sh`

Each variant: probe the mouse position via the external `cliclick` backend,
click once immediately, then on a fixed-interval timer re-probe, stop when the
cursor moved more than a tolerance in either axis, otherwise click again and
adopt the probed position as the new reference.

The embedding is a shallow one: subprocess outcomes (probe results, click
results) are inputs to the tick functions, the timer is modelled as the finite
list of tick inputs the loop consumes before the process exits, and console
output is modelled as a list of log events carrying exactly the coordinates
the code prints.
-/

/-- A screen position, `interface Point { x: number; y: number }` in both
TypeScript variants.  The coordinates come from `parseInt(_, 10)`, hence are
integers. -/
structure Point where
  x : Int
  y : Int
deriving DecidableEq, Repr

/-- Error taxonomy of the backend wrapper (`runCliclick` /
`getCurrentCoords`): executable not found, non-zero backend exit, or an
unparsable position report.  The loop logic never inspects the payload, so
the constructors are bare. -/
inductive CliclickError where
  | notFound
  | commandFailed
  | malformedOutput
deriving DecidableEq, Repr

/-- Console output events that carry coordinates: the movement banner
(`"Mouse moved significantly." … previous … current`) and the per-tick
`"Clicking at (x, y)..."` line. -/
inductive LogEvent where
  | moved (previous current : Point)
  | clicking (current : Point)
deriving DecidableEq, Repr

/-- Outcome of running a variant's main loop against a finite list of tick
inputs: either the process exited (with its exit code, the number of clicks
performed, and the final value of the last-accepted coordinate, `none` when
no initial probe succeeded), or the loop is still running with its current
last-accepted coordinate and click count. -/
inductive RunOutcome where
  | exited (code : Nat) (clicks : Nat) (lastAccepted : Option Point)
  | running (prev : Point) (clicks : Nat)
deriving DecidableEq, Repr

/-- The decision an interval tick leads the driver to: clean stop
(`Deno.exit(0)`), fatal failure (`Deno.exit(1)`), or continue with a new
last-accepted coordinate. -/
inductive Decision where
  | stopClean
  | fatal
  | next (p : Point)
deriving DecidableEq, Repr

/-- Result of the SIGINT handler: the timer state it leaves behind and the
exit code it passes to `Deno.exit`. -/
structure SigintResult where
  timer : Option Nat
  exitCode : Nat
deriving DecidableEq, Repr

deriving instance DecidableEq for Except

/-- ASCII decimal digit test, as used by JavaScript `parseInt(_, 10)`. -/
def isDigitChar (c : Char) : Bool :=
  decide ('0' ≤ c) && decide (c ≤ '9')

/-- The whitespace characters ECMAScript `parseInt` skips at the start of its
input (`StrWhiteSpaceChar` = WhiteSpace ∪ LineTerminator): TAB, LF, VT, FF,
CR, SP, NBSP U+00A0, the Unicode Space_Separator category (U+1680,
U+2000–U+200A, U+202F, U+205F, U+3000), the line separators U+2028/U+2029,
and ZWNBSP U+FEFF. -/
def jsWhitespace (c : Char) : Bool :=
  let n := c.toNat
  decide (n = 9) || decide (n = 10) || decide (n = 11) || decide (n = 12) ||
  decide (n = 13) || decide (n = 32) || decide (n = 160) || decide (n = 5760) ||
  (decide (8192 ≤ n) && decide (n ≤ 8202)) || decide (n = 8232) ||
  decide (n = 8233) || decide (n = 8239) || decide (n = 8287) ||
  decide (n = 12288) || decide (n = 65279)

/-- Value of a digit string, most significant digit first. -/
def digitsToNat (ds : List Char) : Nat :=
  ds.foldl (fun acc c => acc * 10 + (c.toNat - 48)) 0

/-- JavaScript `parseInt`: take the longest leading run of digits; `NaN`
(here `none`) when that run is empty, otherwise its value.  Trailing
non-digit characters are ignored. -/
def parseLeadingDigits (cs : List Char) : Option Nat :=
  let ds := cs.takeWhile isDigitChar
  if ds.isEmpty then none else some (digitsToNat ds)

/-- JavaScript `parseInt(s, 10)` (restricted to exact integer results, which
covers every coordinate in scope): skip leading whitespace, consume an
optional sign, then read the longest leading digit run; `none` models `NaN`. -/
def parseIntJS (cs : List Char) : Option Int :=
  match cs.dropWhile jsWhitespace with
  | [] => none
  | c :: rest =>
    if c = '-' then (parseLeadingDigits rest).map (fun n => -(n : Int))
    else if c = '+' then (parseLeadingDigits rest).map (fun n => (n : Int))
    else (parseLeadingDigits (c :: rest)).map (fun n => (n : Int))

/-- Head-is-a-digit test, used to characterise when `parseIntJS` succeeds. -/
def headIsDigit : List Char → Bool
  | [] => false
  | c :: _ => isDigitChar c

/-- `parseIntJS` succeeds exactly when, after skipping leading whitespace and
an optional sign, the first character is a digit. -/
def parseIntAccepts (cs : List Char) : Bool :=
  match cs.dropWhile jsWhitespace with
  | [] => false
  | c :: rest =>
    if c = '-' then headIsDigit rest
    else if c = '+' then headIsDigit rest
    else headIsDigit (c :: rest)

/-- JavaScript `String.prototype.split(",")` on a character list:
`"" ↦ [""]`, and every comma starts a new (possibly empty) part. -/
def splitComma : List Char → List (List Char)
  | [] => [[]]
  | c :: rest =>
    if c = ',' then [] :: splitComma rest
    else
      match splitComma rest with
      | [] => [[c]]
      | g :: gs => (c :: g) :: gs

/-- The position parser shared by both TypeScript variants
(`src/main.ts` lines 64–85, `src/unnamed/part_000` lines 73–85): split the
backend output on `","`; when there are exactly two parts, `parseInt` both
with radix 10 and require both to be numbers. -/
def parsePoint (output : List Char) : Option Point :=
  match splitComma output with
  | [p0, p1] =>
    match parseIntJS p0, parseIntJS p1 with
    | some x, some y => some ⟨x, y⟩
    | _, _ => none
  | _ => none

/-- Modelled from the spec: an integer string in the sense of
"exactly two comma-separated integers" — an optional minus sign followed by
one or more digits, nothing else. -/
def specIsIntegerString (cs : List Char) : Bool :=
  match cs with
  | '-' :: rest => (!rest.isEmpty) && rest.all isDigitChar
  | _ => (!cs.isEmpty) && cs.all isDigitChar

/-- Modelled from the spec: "the output is … exactly two comma-separated
integers". -/
def specTwoCommaSeparatedIntegers (cs : List Char) : Bool :=
  match splitComma cs with
  | [a, b] => specIsIntegerString a && specIsIntegerString b
  | _ => false

/-- The movement check (spec's `MovementGuard.exceedsTolerance`), inlined at
`src/main.ts` lines 144–148 and `src/unnamed/part_000` lines 104–108:
`Math.abs(current.x - previous.x) > tolerance || Math.abs(current.y -
previous.y) > tolerance`. -/
def exceedsTolerance (previous current : Point) (tolerance : Int) : Bool :=
  let dx := |current.x - previous.x|
  let dy := |current.y - previous.y|
  decide (dx > tolerance) || decide (dy > tolerance)

namespace MainTs

/-- `src/main.ts` line 7: `const INTERVAL_MS = 100`. -/
def INTERVAL_MS : Nat := 100

/-- `src/main.ts` line 8: `const TOLERANCE = 10`. -/
def TOLERANCE : Int := 10

/-- `getCurrentCoords` of `src/main.ts` (lines 64–85) applied to the trimmed
backend output: returns the parsed point, or `none` on a malformed report. -/
def getCurrentCoords (output : List Char) : Option Point :=
  parsePoint output

/-- The outside-world inputs one interval tick consumes: the probe result
(`null` on any probe failure) and whether the `click()` call succeeds. -/
structure TickInput where
  probe : Option Point
  clickOk : Bool

/-- A single step of the loop: either `Deno.exit code` or continue with the
updated `previousCoords`. -/
inductive TickStep where
  | exitCode (code : Nat)
  | cont (next : Point)
deriving DecidableEq, Repr

/-- The interval callback of `src/main.ts` (lines 130–179) as a function of
the previous coordinates, the probe result, and the click outcome.  Returns
the control decision together with the coordinate-bearing log lines the tick
prints.  (The defensive `else if (!currentCoords)` branch at lines 157–162
is unreachable and has no counterpart here.) -/
def tick (previousCoords : Point) (currentCoords : Option Point) (clickOk : Bool) :
    TickStep × List LogEvent :=
  match currentCoords with
  | none => (.exitCode 1, [])
  | some cur =>
    if exceedsTolerance previousCoords cur TOLERANCE then
      (.exitCode 0, [.moved previousCoords cur])
    else if clickOk then
      (.cont cur, [.clicking cur])
    else
      (.exitCode 1, [.clicking cur])

/-- Run the interval of `src/main.ts` on a finite list of tick inputs,
starting from a last-accepted coordinate and a count of successful clicks so
far. -/
def loop : Point → List TickInput → Nat → RunOutcome
  | prev, [], clicks => .running prev clicks
  | prev, t :: ts, clicks =>
    match (tick prev t.probe t.clickOk).1 with
    | .exitCode c => .exited c clicks (some prev)
    | .cont next => loop next ts (clicks + 1)

/-- The whole `main` of `src/main.ts` (lines 104–188): initial probe (exit 1
when it fails), immediate first click (exit 1 when it fails), then the
interval loop. -/
def run (initProbe : Option Point) (initClickOk : Bool) (ticks : List TickInput) :
    RunOutcome :=
  match initProbe with
  | none => .exited 1 0 none
  | some p0 =>
    if initClickOk then loop p0 ticks 1
    else .exited 1 0 (some p0)

/-- The SIGINT listener of `src/main.ts` (lines 182–187):
`clearInterval(intervalId); Deno.exit(0)` — regardless of the timer handle's
value the timer ends up cleared and the exit code is 0. -/
def sigintHandler (_intervalId : Nat) : SigintResult :=
  ⟨none, 0⟩

end MainTs

namespace Part000

/-- `src/unnamed/part_000` line 7: `const INTERVAL_MS = 100`. -/
def INTERVAL_MS : Nat := 100

/-- `src/unnamed/part_000` line 8: `const TOLERANCE = 10`. -/
def TOLERANCE : Int := 10

/-- `getCurrentCoords` of `src/unnamed/part_000` (lines 73–85) applied to the
trimmed backend output: the parsed point, or a thrown `CliclickError` for an
invalid coordinate format. -/
def getCurrentCoords (output : List Char) : Except CliclickError Point :=
  match parsePoint output with
  | some p => .ok p
  | none => .error .malformedOutput

/-- The outside-world inputs one tick consumes: the result of
`getCurrentCoords()` (which can throw) and the result of `click()` (which
can throw). -/
structure TickInput where
  probe : Except CliclickError Point
  clickRes : Except CliclickError Unit

/-- What one call of `handleIntervalTick` produces: its return value or
thrown error, whether a click was successfully performed, and the
coordinate-bearing log lines it prints. -/
structure TickResult where
  result : Except CliclickError (Option Point)
  clicked : Bool
  logs : List LogEvent
deriving DecidableEq, Repr

/-- `handleIntervalTick` of `src/unnamed/part_000` (lines 101–121) as a
function of the previous coordinates, the probe result and the click result:
a probe error propagates; excess movement logs both coordinates and returns
`null` without clicking; otherwise the tick logs the click line, clicks
(propagating a click error), and returns the probed coordinates. -/
def handleIntervalTick (previousCoords : Point) (probe : Except CliclickError Point)
    (clickRes : Except CliclickError Unit) : TickResult :=
  match probe with
  | .error e => ⟨.error e, false, []⟩
  | .ok currentCoords =>
    if exceedsTolerance previousCoords currentCoords TOLERANCE then
      ⟨.ok none, false, [.moved previousCoords currentCoords]⟩
    else
      match clickRes with
      | .error e => ⟨.error e, false, [.clicking currentCoords]⟩
      | .ok _ => ⟨.ok (some currentCoords), true, [.clicking currentCoords]⟩

/-- The interval callback of `src/unnamed/part_000` `main` (lines 161–188)
run on a finite list of tick inputs: a thrown error exits 1, a `null` return
exits 0, a returned coordinate becomes the new `previousCoords`. -/
def loop : Point → List TickInput → Nat → RunOutcome
  | prev, [], clicks => .running prev clicks
  | prev, t :: ts, clicks =>
    match (handleIntervalTick prev t.probe t.clickRes).result with
    | .error _ => .exited 1 clicks (some prev)
    | .ok none => .exited 0 clicks (some prev)
    | .ok (some next) => loop next ts (clicks + 1)

/-- The whole `main` of `src/unnamed/part_000` (lines 125–202): initial
probe and initial click inside the `try` (any throw exits 1), then the
interval loop. -/
def run (initProbe : Except CliclickError Point) (initClick : Except CliclickError Unit)
    (ticks : List TickInput) : RunOutcome :=
  match initProbe with
  | .error _ => .exited 1 0 none
  | .ok p0 =>
    match initClick with
    | .error _ => .exited 1 0 (some p0)
    | .ok _ => loop p0 ticks 1

/-- `stopInterval` of `src/unnamed/part_000` (lines 137–143): clear the
timer if it is still set, otherwise do nothing. -/
def stopInterval (intervalId : Option Nat) : Option Nat :=
  match intervalId with
  | some _ => none
  | none => none

/-- The SIGINT listener of `src/unnamed/part_000` (lines 145–149):
`stopInterval(); Deno.exit(0)`. -/
def sigintOnce (intervalId : Option Nat) : SigintResult :=
  ⟨stopInterval intervalId, 0⟩

/-- The driver's reading of one tick (lines 170–187 of
`src/unnamed/part_000`): thrown error ⇒ exit 1, `null` ⇒ exit 0, coordinate
⇒ continue with it. -/
def decision (prev : Point) (probe : Except CliclickError Point)
    (clickRes : Except CliclickError Unit) : Decision :=
  match (handleIntervalTick prev probe clickRes).result with
  | .error _ => .fatal
  | .ok none => .stopClean
  | .ok (some p) => .next p

end Part000

namespace Sh

/-- `src/auto_click_check_move.sh` line 4: `INTERVAL=0.001` (seconds). -/
def INTERVAL : Rat := 1 / 1000

/-- The shell variant's click interval expressed in milliseconds. -/
def INTERVAL_MS : Rat := 1000 * INTERVAL

/-- `src/auto_click_check_move.sh` line 5: `TOLERANCE=10`. -/
def TOLERANCE : Int := 10

/-- The shell movement test (line 77):
`dx > TOLERANCE || dx < -TOLERANCE || dy > TOLERANCE || dy < -TOLERANCE`
with `dx = current_x - prev_x`, `dy = current_y - prev_y`. -/
def exceeds (prev current : Point) : Bool :=
  let dx := current.x - prev.x
  let dy := current.y - prev.y
  decide (dx > TOLERANCE) || decide (dx < -TOLERANCE) ||
  decide (dy > TOLERANCE) || decide (dy < -TOLERANCE)

/-- One shell loop iteration's inputs: the probe result (`none` when
`get_current_coords` fails) and whether the unchecked `cliclick c:.` click
command succeeds.  The script never examines the click's exit status, so
`clickOk` is deliberately unread by `loop`. -/
structure TickInput where
  probe : Option Point
  clickOk : Bool

/-- The `while true` loop of `src/auto_click_check_move.sh` (lines 63–96):
probe failure or excess movement `break`s out, after which the script runs a
final `echo` and terminates with exit status 0; otherwise the script clicks
(outcome unchecked, but the attempt is counted) and adopts the probed
coordinates. -/
def loop : Point → List TickInput → Nat → RunOutcome
  | prev, [], clicks => .running prev clicks
  | prev, t :: ts, clicks =>
    match t.probe with
    | none => .exited 0 clicks (some prev)
    | some cur =>
      if exceeds prev cur then .exited 0 clicks (some prev)
      else loop cur ts (clicks + 1)

/-- The whole script (lines 41–98): missing backend or failed initial probe
exit 1; then the initial click is issued with its outcome unchecked
(`initClickOk` is deliberately unread), and the loop runs.  `clicks` counts
click-command invocations. -/
def run (initProbe : Option Point) (_initClickOk : Bool) (ticks : List TickInput) :
    RunOutcome :=
  match initProbe with
  | none => .exited 1 0 none
  | some p0 => loop p0 ticks 1

end Sh

/-- The driver's reading of one `src/main.ts` tick, for comparison with
`Part000.decision`. -/
def MainTs.decision (prev : Point) (probe : Option Point) (clickOk : Bool) : Decision :=
  match (MainTs.tick prev probe clickOk).1 with
  | .exitCode 0 => .stopClean
  | .exitCode _ => .fatal
  | .cont p => .next p

/-- Whether a `click()` call that may throw succeeded, mapping
`src/unnamed/part_000`'s exception-based click to `src/main.ts`'s boolean
one. -/
def isOkClick (r : Except CliclickError Unit) : Bool :=
  match r with
  | .ok _ => true
  | .error _ => false

/-- The non-terminal phases of the state machine during which a manual
interrupt can arrive: before the loop is wired up (`Initializing`) and while
the timer fires (`Running`). -/
inductive Phase where
  | initializing
  | running
deriving DecidableEq, Repr

/-- How a delivered SIGINT ends the process: a clean `Deno.exit code`, or
death by the runtime's default signal disposition (no clean exit code). -/
inductive TerminationKind where
  | exitCode (code : Nat)
  | signalDeath
deriving DecidableEq, Repr

/-- Whether `src/main.ts` has its SIGINT listener installed in each phase:
`Deno.addSignalListener` is only called at lines 182–187, after the initial
probe (line 113), the initial click (line 124) and `setInterval` (line 130),
so no listener exists while the program is still Initializing. -/
def MainTs.sigintListenerInstalled : Phase → Bool
  | .initializing => false
  | .running => true

/-- Modelled from the spec's platform contract ("Signals", "process/OS
signal delivery" as external collaborator): effect of a SIGINT delivered to
`src/main.ts` in a given phase.  With the listener installed its body runs
(`clearInterval`; `Deno.exit(0)`); without a listener the runtime's default
disposition kills the process with a signal status rather than a clean exit
code. -/
def MainTs.sigintDelivery (ph : Phase) : TerminationKind :=
  if MainTs.sigintListenerInstalled ph then .exitCode 0 else .signalDeath

/-- Whether `src/unnamed/part_000` has its SIGINT listener installed in each
phase: `Deno.addSignalListener` is called at lines 145–149, before the
`try` block that performs the initial probe and click (lines 151–158), so
the listener exists in both phases. -/
def Part000.sigintListenerInstalled : Phase → Bool
  | .initializing => true
  | .running => true

/-- Modelled from the spec's platform contract, as for
`MainTs.sigintDelivery`: effect of a SIGINT delivered to
`src/unnamed/part_000` in a given phase (its listener runs `stopInterval();
Deno.exit(0)`). -/
def Part000.sigintDelivery (ph : Phase) : TerminationKind :=
  if Part000.sigintListenerInstalled ph then .exitCode 0 else .signalDeath

/-- `parseLeadingDigits` succeeds exactly when the first character is a digit. -/
theorem parseLeadingDigits_isSome (cs : List Char) :
    (parseLeadingDigits cs).isSome = headIsDigit cs := by
  cases cs with
  | nil => rfl
  | cons c rest =>
    by_cases h : isDigitChar c = true
    · simp [parseLeadingDigits, headIsDigit, List.takeWhile_cons, h]
    · simp [parseLeadingDigits, headIsDigit, List.takeWhile_cons, h]

/-- `parseIntJS` succeeds exactly on the strings `parseIntAccepts` accepts. -/
theorem parseIntJS_isSome (cs : List Char) :
    (parseIntJS cs).isSome = parseIntAccepts cs := by
  unfold parseIntJS parseIntAccepts
  cases h : cs.dropWhile jsWhitespace with
  | nil => rfl
  | cons c rest =>
    by_cases h1 : c = '-'
    · simp only [h1, if_pos rfl]
      rw [← parseLeadingDigits_isSome]
      cases parseLeadingDigits rest <;> rfl
    · by_cases h2 : c = '+'
      · simp only [h1, h2, if_neg (fun hc => h1 hc), if_pos rfl]
        rw [← parseLeadingDigits_isSome]
        cases parseLeadingDigits rest <;> rfl
      · simp only [if_neg h1, if_neg h2]
        rw [show headIsDigit (c :: rest) = headIsDigit (c :: rest) from rfl,
          ← parseLeadingDigits_isSome]
        cases parseLeadingDigits (c :: rest) <;> rfl

/-- Shape of `parsePoint`'s success condition in terms of `parseIntAccepts`. -/
theorem parsePoint_isSome (cs : List Char) :
    (parsePoint cs).isSome =
      (match splitComma cs with
       | [a, b] => parseIntAccepts a && parseIntAccepts b
       | _ => false) := by
  unfold parsePoint
  cases splitComma cs with
  | nil => rfl
  | cons a t =>
    cases t with
    | nil => rfl
    | cons b t2 =>
      cases t2 with
      | nil =>
        cases ha : parseIntJS a <;> cases hb : parseIntJS b <;>
          simp [← parseIntJS_isSome, ha, hb]
      | cons c t3 => rfl

/-- Case analysis of `Part000.handleIntervalTick`: the four paths of the
source function, each with its exact output. -/
theorem Part000.handleIntervalTick_cases (prev : Point)
    (probe : Except CliclickError Point) (clickRes : Except CliclickError Unit) :
    (∃ e, probe = .error e ∧
      Part000.handleIntervalTick prev probe clickRes = ⟨.error e, false, []⟩) ∨
    (∃ c, probe = .ok c ∧ exceedsTolerance prev c Part000.TOLERANCE = true ∧
      Part000.handleIntervalTick prev probe clickRes = ⟨.ok none, false, [.moved prev c]⟩) ∨
    (∃ c e, probe = .ok c ∧ exceedsTolerance prev c Part000.TOLERANCE = false ∧
      clickRes = .error e ∧
      Part000.handleIntervalTick prev probe clickRes = ⟨.error e, false, [.clicking c]⟩) ∨
    (∃ c, probe = .ok c ∧ exceedsTolerance prev c Part000.TOLERANCE = false ∧
      clickRes = .ok () ∧
      Part000.handleIntervalTick prev probe clickRes = ⟨.ok (some c), true, [.clicking c]⟩) := by
  cases probe with
  | error e => exact .inl ⟨e, rfl, by simp [Part000.handleIntervalTick]⟩
  | ok c =>
    cases hx : exceedsTolerance prev c Part000.TOLERANCE with
    | true => exact .inr (.inl ⟨c, rfl, hx, by simp [Part000.handleIntervalTick, hx]⟩)
    | false =>
      cases clickRes with
      | error e =>
        exact .inr (.inr (.inl ⟨c, e, rfl, hx, rfl,
          by simp [Part000.handleIntervalTick, hx]⟩))
      | ok u =>
        cases u
        exact .inr (.inr (.inr ⟨c, rfl, hx, rfl,
          by simp [Part000.handleIntervalTick, hx]⟩))

/-- A tick whose probe throws, or whose click throws after an in-tolerance
probe, makes the `Part000` loop exit 1 immediately: the click counter is
frozen, the last-accepted coordinate untouched, and the remaining tick list
never consumed. -/
theorem Part000.loop_fail_step (prev : Point) (t : Part000.TickInput)
    (ts : List Part000.TickInput) (clicks : Nat)
    (h : (∃ e, t.probe = .error e) ∨
      (∃ c e, t.probe = .ok c ∧ exceedsTolerance prev c Part000.TOLERANCE = false ∧
        t.clickRes = .error e)) :
    Part000.loop prev (t :: ts) clicks = .exited 1 clicks (some prev) := by
  rcases h with ⟨e, hp⟩ | ⟨c, e, hp, hx, hc⟩
  · simp [Part000.loop, Part000.handleIntervalTick, hp]
  · simp [Part000.loop, Part000.handleIntervalTick, hp, hx, hc]

/-- A tick whose probe exceeds the tolerance makes the `Part000` loop exit 0
immediately, freezing the click counter and the last-accepted coordinate. -/
theorem Part000.loop_stop_step (prev : Point) (t : Part000.TickInput)
    (ts : List Part000.TickInput) (clicks : Nat) (c : Point)
    (hp : t.probe = .ok c) (hx : exceedsTolerance prev c Part000.TOLERANCE = true) :
    Part000.loop prev (t :: ts) clicks = .exited 0 clicks (some prev) := by
  simp [Part000.loop, Part000.handleIntervalTick, hp, hx]

/-- A successful in-tolerance tick makes the `Part000` loop continue with the
probed coordinate and one more click. -/
theorem Part000.loop_cont_step (prev : Point) (t : Part000.TickInput)
    (ts : List Part000.TickInput) (clicks : Nat) (c : Point)
    (hp : t.probe = .ok c) (hx : exceedsTolerance prev c Part000.TOLERANCE = false)
    (hc : t.clickRes = .ok ()) :
    Part000.loop prev (t :: ts) clicks = Part000.loop c ts (clicks + 1) := by
  simp [Part000.loop, Part000.handleIntervalTick, hp, hx, hc]

/-- The `Part000` loop exits 0 exactly by running a successful prefix and then
hitting a tick whose probed coordinate exceeds the tolerance relative to the
prefix's final accepted coordinate; the click count and last-accepted
coordinate are the prefix's. -/
theorem Part000.loop_exit_zero :
    ∀ (ts : List Part000.TickInput) (prev : Point) (clicks n : Nat) (la : Option Point),
      Part000.loop prev ts clicks = .exited 0 n la →
      ∃ pre t suf p c, ts = pre ++ t :: suf ∧
        Part000.loop prev pre clicks = .running p n ∧ t.probe = .ok c ∧
        exceedsTolerance p c Part000.TOLERANCE = true ∧ la = some p := by
  intro ts
  induction ts with
  | nil => intro prev clicks n la h; simp [Part000.loop] at h
  | cons t ts ih =>
    intro prev clicks n la h
    rcases Part000.handleIntervalTick_cases prev t.probe t.clickRes with
      ⟨e, hp, ht⟩ | ⟨c, hp, hx, ht⟩ | ⟨c, e, hp, hx, hc, ht⟩ | ⟨c, hp, hx, hc, ht⟩
    · rw [Part000.loop_fail_step prev t ts clicks (.inl ⟨e, hp⟩)] at h; simp at h
    · rw [Part000.loop_stop_step prev t ts clicks c hp hx] at h
      obtain ⟨hn, hla⟩ : clicks = n ∧ some prev = la := by
        constructor <;> cases h <;> rfl
      exact ⟨[], t, ts, prev, c, rfl, by simp [Part000.loop, hn], hp, hx, hla.symm⟩
    · rw [Part000.loop_fail_step prev t ts clicks (.inr ⟨c, e, hp, hx, hc⟩)] at h
      simp at h
    · rw [Part000.loop_cont_step prev t ts clicks c hp hx hc] at h
      obtain ⟨pre, t', suf, p, c', h1, h2, h3, h4, h5⟩ := ih c (clicks + 1) n la h
      exact ⟨t :: pre, t', suf, p, c', by rw [h1]; rfl,
        by rw [Part000.loop_cont_step prev t pre clicks c hp hx hc]; exact h2, h3, h4, h5⟩

/-- If the `Part000` loop is still running, every consumed tick succeeded:
the accepted coordinate is the initial one when no tick ran, otherwise the
coordinate probed by the last (most recent) tick, and every tick clicked. -/
theorem Part000.loop_running :
    ∀ (ts : List Part000.TickInput) (prev : Point) (clicks : Nat) (p : Point) (n : Nat),
      Part000.loop prev ts clicks = .running p n →
      (ts = [] ∧ p = prev ∧ n = clicks) ∨
      ∃ pre t, ts = pre ++ [t] ∧ t.probe = .ok p ∧ n = clicks + ts.length := by
  intro ts
  induction ts with
  | nil =>
    intro prev clicks p n h
    simp [Part000.loop] at h
    exact .inl ⟨rfl, h.1.symm, h.2.symm⟩
  | cons t ts ih =>
    intro prev clicks p n h
    rcases Part000.handleIntervalTick_cases prev t.probe t.clickRes with
      ⟨e, hp, ht⟩ | ⟨c, hp, hx, ht⟩ | ⟨c, e, hp, hx, hc, ht⟩ | ⟨c, hp, hx, hc, ht⟩
    · rw [Part000.loop_fail_step prev t ts clicks (.inl ⟨e, hp⟩)] at h; simp at h
    · rw [Part000.loop_stop_step prev t ts clicks c hp hx] at h; simp at h
    · rw [Part000.loop_fail_step prev t ts clicks (.inr ⟨c, e, hp, hx, hc⟩)] at h
      simp at h
    · rw [Part000.loop_cont_step prev t ts clicks c hp hx hc] at h
      rcases ih c (clicks + 1) p n h with ⟨hnil, hpc, hn⟩ | ⟨pre, t', h1, h2, h3⟩
      · subst hnil
        exact .inr ⟨[], t, rfl, by rw [hp, hpc], by simp [hn]⟩
      · exact .inr ⟨t :: pre, t', by rw [h1]; rfl, h2, by simp [h3]; omega⟩

/-- Case analysis of the `src/main.ts` interval callback: the four paths of
the source code, each with its exact control decision and log output. -/
theorem MainTs.tick_cases (prev : Point) (probe : Option Point) (clickOk : Bool) :
    (probe = none ∧ MainTs.tick prev probe clickOk = (.exitCode 1, [])) ∨
    (∃ c, probe = some c ∧ exceedsTolerance prev c MainTs.TOLERANCE = true ∧
      MainTs.tick prev probe clickOk = (.exitCode 0, [.moved prev c])) ∨
    (∃ c, probe = some c ∧ exceedsTolerance prev c MainTs.TOLERANCE = false ∧
      clickOk = true ∧ MainTs.tick prev probe clickOk = (.cont c, [.clicking c])) ∨
    (∃ c, probe = some c ∧ exceedsTolerance prev c MainTs.TOLERANCE = false ∧
      clickOk = false ∧ MainTs.tick prev probe clickOk = (.exitCode 1, [.clicking c])) := by
  cases probe with
  | none => exact .inl ⟨rfl, by simp [MainTs.tick]⟩
  | some c =>
    cases hx : exceedsTolerance prev c MainTs.TOLERANCE with
    | true => exact .inr (.inl ⟨c, rfl, hx, by simp [MainTs.tick, hx]⟩)
    | false =>
      cases clickOk with
      | true => exact .inr (.inr (.inl ⟨c, rfl, hx, rfl, by simp [MainTs.tick, hx]⟩))
      | false => exact .inr (.inr (.inr ⟨c, rfl, hx, rfl, by simp [MainTs.tick, hx]⟩))

/-- A tick whose probe fails, or whose click fails after an in-tolerance
probe, makes the `src/main.ts` loop exit 1 immediately, freezing the click
counter and the last-accepted coordinate and never consuming the remaining
ticks. -/
theorem MainTs.loop_fail_step_ts (prev : Point) (t : MainTs.TickInput)
    (ts : List MainTs.TickInput) (clicks : Nat)
    (h : t.probe = none ∨
      (∃ c, t.probe = some c ∧ exceedsTolerance prev c MainTs.TOLERANCE = false ∧
        t.clickOk = false)) :
    MainTs.loop prev (t :: ts) clicks = .exited 1 clicks (some prev) := by
  rcases h with hp | ⟨c, hp, hx, hc⟩
  · simp [MainTs.loop, MainTs.tick, hp]
  · simp [MainTs.loop, MainTs.tick, hp, hx, hc]

/-- A tick whose probe exceeds the tolerance makes the `src/main.ts` loop
exit 0 immediately, freezing the click counter and the last-accepted
coordinate. -/
theorem MainTs.loop_stop_step_ts (prev : Point) (t : MainTs.TickInput)
    (ts : List MainTs.TickInput) (clicks : Nat) (c : Point)
    (hp : t.probe = some c) (hx : exceedsTolerance prev c MainTs.TOLERANCE = true) :
    MainTs.loop prev (t :: ts) clicks = .exited 0 clicks (some prev) := by
  simp [MainTs.loop, MainTs.tick, hp, hx]

/-- A successful in-tolerance tick makes the `src/main.ts` loop continue with
the probed coordinate and one more click. -/
theorem MainTs.loop_cont_step_ts (prev : Point) (t : MainTs.TickInput)
    (ts : List MainTs.TickInput) (clicks : Nat) (c : Point)
    (hp : t.probe = some c) (hx : exceedsTolerance prev c MainTs.TOLERANCE = false)
    (hc : t.clickOk = true) :
    MainTs.loop prev (t :: ts) clicks = MainTs.loop c ts (clicks + 1) := by
  simp [MainTs.loop, MainTs.tick, hp, hx, hc]

/-- The `src/main.ts` loop exits 0 exactly by running a successful prefix and
then hitting a tick whose probed coordinate exceeds the tolerance relative to
the prefix's final accepted coordinate. -/
theorem MainTs.loop_exit_zero_ts :
    ∀ (ts : List MainTs.TickInput) (prev : Point) (clicks n : Nat) (la : Option Point),
      MainTs.loop prev ts clicks = .exited 0 n la →
      ∃ pre t suf p c, ts = pre ++ t :: suf ∧
        MainTs.loop prev pre clicks = .running p n ∧ t.probe = some c ∧
        exceedsTolerance p c MainTs.TOLERANCE = true ∧ la = some p := by
  intro ts
  induction ts with
  | nil => intro prev clicks n la h; simp [MainTs.loop] at h
  | cons t ts ih =>
    intro prev clicks n la h
    rcases MainTs.tick_cases prev t.probe t.clickOk with
      ⟨hp, ht⟩ | ⟨c, hp, hx, ht⟩ | ⟨c, hp, hx, hc, ht⟩ | ⟨c, hp, hx, hc, ht⟩
    · rw [MainTs.loop_fail_step_ts prev t ts clicks (.inl hp)] at h; simp at h
    · rw [MainTs.loop_stop_step_ts prev t ts clicks c hp hx] at h
      obtain ⟨hn, hla⟩ : clicks = n ∧ some prev = la := by
        constructor <;> cases h <;> rfl
      exact ⟨[], t, ts, prev, c, rfl, by simp [MainTs.loop, hn], hp, hx, hla.symm⟩
    · rw [MainTs.loop_cont_step_ts prev t ts clicks c hp hx hc] at h
      obtain ⟨pre, t', suf, p, c', h1, h2, h3, h4, h5⟩ := ih c (clicks + 1) n la h
      exact ⟨t :: pre, t', suf, p, c', by rw [h1]; rfl,
        by rw [MainTs.loop_cont_step_ts prev t pre clicks c hp hx hc]; exact h2, h3, h4, h5⟩
    · rw [MainTs.loop_fail_step_ts prev t ts clicks (.inr ⟨c, hp, hx, hc⟩)] at h
      simp at h

/-- If the `src/main.ts` loop is still running, every consumed tick
succeeded: the accepted coordinate is the initial one when no tick ran,
otherwise the coordinate probed by the last tick, and every tick clicked. -/
theorem MainTs.loop_running_ts :
    ∀ (ts : List MainTs.TickInput) (prev : Point) (clicks : Nat) (p : Point) (n : Nat),
      MainTs.loop prev ts clicks = .running p n →
      (ts = [] ∧ p = prev ∧ n = clicks) ∨
      ∃ pre t, ts = pre ++ [t] ∧ t.probe = some p ∧ n = clicks + ts.length := by
  intro ts
  induction ts with
  | nil =>
    intro prev clicks p n h
    simp [MainTs.loop] at h
    exact .inl ⟨rfl, h.1.symm, h.2.symm⟩
  | cons t ts ih =>
    intro prev clicks p n h
    rcases MainTs.tick_cases prev t.probe t.clickOk with
      ⟨hp, ht⟩ | ⟨c, hp, hx, ht⟩ | ⟨c, hp, hx, hc, ht⟩ | ⟨c, hp, hx, hc, ht⟩
    · rw [MainTs.loop_fail_step_ts prev t ts clicks (.inl hp)] at h; simp at h
    · rw [MainTs.loop_stop_step_ts prev t ts clicks c hp hx] at h; simp at h
    · rw [MainTs.loop_cont_step_ts prev t ts clicks c hp hx hc] at h
      rcases ih c (clicks + 1) p n h with ⟨hnil, hpc, hn⟩ | ⟨pre, t', h1, h2, h3⟩
      · subst hnil
        exact .inr ⟨[], t, rfl, by rw [hp, hpc], by simp [hn]⟩
      · exact .inr ⟨t :: pre, t', by rw [h1]; rfl, h2, by simp [h3]; omega⟩
    · rw [MainTs.loop_fail_step_ts prev t ts clicks (.inr ⟨c, hp, hx, hc⟩)] at h
      simp at h

/-- A probe failure or excess movement makes the shell loop `break`; the
script then terminates with exit status 0, the click-attempt counter frozen
and the reference coordinates untouched. -/
theorem Sh.loop_stop_step_sh (prev : Point) (t : Sh.TickInput)
    (ts : List Sh.TickInput) (clicks : Nat)
    (h : t.probe = none ∨ ∃ c, t.probe = some c ∧ Sh.exceeds prev c = true) :
    Sh.loop prev (t :: ts) clicks = .exited 0 clicks (some prev) := by
  rcases h with hp | ⟨c, hp, hx⟩
  · simp [Sh.loop, hp]
  · simp [Sh.loop, hp, hx]

/-- A within-tolerance shell iteration always clicks (the command's exit
status is not examined) and adopts the probed coordinates. -/
theorem Sh.loop_cont_step_sh (prev : Point) (t : Sh.TickInput)
    (ts : List Sh.TickInput) (clicks : Nat) (c : Point)
    (hp : t.probe = some c) (hx : Sh.exceeds prev c = false) :
    Sh.loop prev (t :: ts) clicks = Sh.loop c ts (clicks + 1) := by
  simp [Sh.loop, hp, hx]

/-- If the shell loop is still running, the reference coordinates are the
initial ones when no iteration ran, otherwise the coordinates probed by the
last iteration, and every iteration issued a click command. -/
theorem Sh.loop_running_sh :
    ∀ (ts : List Sh.TickInput) (prev : Point) (clicks : Nat) (p : Point) (n : Nat),
      Sh.loop prev ts clicks = .running p n →
      (ts = [] ∧ p = prev ∧ n = clicks) ∨
      ∃ pre t, ts = pre ++ [t] ∧ t.probe = some p ∧ n = clicks + ts.length := by
  intro ts
  induction ts with
  | nil =>
    intro prev clicks p n h
    simp [Sh.loop] at h
    exact .inl ⟨rfl, h.1.symm, h.2.symm⟩
  | cons t ts ih =>
    intro prev clicks p n h
    cases hp : t.probe with
    | none => rw [Sh.loop_stop_step_sh prev t ts clicks (.inl hp)] at h; simp at h
    | some c =>
      cases hx : Sh.exceeds prev c with
      | true =>
        rw [Sh.loop_stop_step_sh prev t ts clicks (.inr ⟨c, hp, hx⟩)] at h; simp at h
      | false =>
        rw [Sh.loop_cont_step_sh prev t ts clicks c hp hx] at h
        rcases ih c (clicks + 1) p n h with ⟨hnil, hpc, hn⟩ | ⟨pre, t', h1, h2, h3⟩
        · subst hnil
          exact .inr ⟨[], t, rfl, by rw [hp, hpc], by simp [hn]⟩
        · exact .inr ⟨t :: pre, t', by rw [h1]; rfl, h2, by simp [h3]; omega⟩

/-- `Part000.getCurrentCoords` succeeds exactly when `parsePoint` does. -/
theorem Part000.getCurrentCoords_ok_iff (cs : List Char) (p : Point) :
    Part000.getCurrentCoords cs = .ok p ↔ parsePoint cs = some p := by
  unfold Part000.getCurrentCoords
  cases parsePoint cs <;> simp

/-- `Part000.getCurrentCoords` fails with `malformedOutput` exactly when
`parsePoint` fails. -/
theorem Part000.getCurrentCoords_error_iff (cs : List Char) :
    Part000.getCurrentCoords cs = .error .malformedOutput ↔ parsePoint cs = none := by
  unfold Part000.getCurrentCoords
  cases parsePoint cs <;> simp

/-- `parsePoint` succeeds exactly when the output splits on commas into two
parts both accepted by JavaScript `parseInt`. -/
theorem parsePoint_some_iff_accepts (cs : List Char) :
    (∃ p, parsePoint cs = some p) ↔
      ∃ a b, splitComma cs = [a, b] ∧ parseIntAccepts a = true ∧ parseIntAccepts b = true := by
  rw [← Option.isSome_iff_exists, parsePoint_isSome]
  cases h : splitComma cs with
  | nil => simp
  | cons a t =>
    cases t with
    | nil => simp
    | cons b t2 =>
      cases t2 with
      | nil =>
        simp only [Bool.and_eq_true, List.cons.injEq, and_true]
        exact ⟨fun hab => ⟨a, b, ⟨rfl, rfl⟩, hab⟩,
          fun ⟨a', b', ⟨ha, hb⟩, hab⟩ => by rw [ha, hb]; exact hab⟩
      | cons c t3 => simp

/-- Claim C1: for every pair of coordinates and every tolerance `t ≥ 0`, the
movement check returns true iff `abs(current.x - previous.x) > t` or
`abs(current.y - previous.y) > t`; a per-axis delta of exactly `t` does not
trigger a stop and a delta of `t + 1` does (in either axis). -/
theorem movement_check_correct (previous current : Point) (t : Int) (ht : 0 ≤ t) :
    (exceedsTolerance previous current t = true ↔
      (|current.x - previous.x| > t ∨ |current.y - previous.y| > t))
    ∧ exceedsTolerance previous ⟨previous.x + t, previous.y + t⟩ t = false
    ∧ exceedsTolerance previous ⟨previous.x + (t + 1), previous.y⟩ t = true
    ∧ exceedsTolerance previous ⟨previous.x, previous.y + (t + 1)⟩ t = true := by
  have h1 : (0 : Int) ≤ t + 1 := by linarith
  refine ⟨?_, ?_, ?_, ?_⟩
  · simp [exceedsTolerance]
  · simp only [exceedsTolerance, add_sub_cancel_left, Bool.or_eq_false_iff,
      decide_eq_false_iff_not, not_lt]
    rw [abs_of_nonneg ht]
    exact ⟨le_refl t, le_refl t⟩
  · simp only [exceedsTolerance, add_sub_cancel_left, sub_self, abs_zero,
      Bool.or_eq_true, decide_eq_true_eq]
    rw [abs_of_nonneg h1]
    omega
  · simp only [exceedsTolerance, add_sub_cancel_left, sub_self, abs_zero,
      Bool.or_eq_true, decide_eq_true_eq]
    rw [abs_of_nonneg h1]
    omega

/-- Witness for C1 at `previous = (0,0)`, `current = (3,4)`, `t = 2`. -/
theorem movement_check_correct_witness :
    (exceedsTolerance ⟨0, 0⟩ ⟨3, 4⟩ 2 = true ↔
      (|(Point.mk 3 4).x - (Point.mk 0 0).x| > 2 ∨ |(Point.mk 3 4).y - (Point.mk 0 0).y| > 2))
    ∧ exceedsTolerance ⟨0, 0⟩ ⟨(Point.mk 0 0).x + 2, (Point.mk 0 0).y + 2⟩ 2 = false
    ∧ exceedsTolerance ⟨0, 0⟩ ⟨(Point.mk 0 0).x + (2 + 1), (Point.mk 0 0).y⟩ 2 = true
    ∧ exceedsTolerance ⟨0, 0⟩ ⟨(Point.mk 0 0).x, (Point.mk 0 0).y + (2 + 1)⟩ 2 = true :=
  movement_check_correct ⟨0, 0⟩ ⟨3, 4⟩ 2 (by decide)

/-- Counterexample to claim C2 as stated: the backend output `"12a,5"` is not
two comma-separated integers, yet the parser accepts it as `(12, 5)` because
JavaScript `parseInt` ignores trailing garbage. -/
theorem coords_parse_lenient_counterexample :
    Part000.getCurrentCoords "12a,5".toList = .ok ⟨12, 5⟩ ∧
    specTwoCommaSeparatedIntegers "12a,5".toList = false := by
  constructor <;> decide

/-- Claim C2 (amended): the parser yields a Coordinate exactly when the
output splits on commas into exactly two parts each of which, after optional
leading whitespace and an optional sign, starts with a digit (the value is
the longest leading digit run; trailing characters are ignored).  Any other
output fails with `MalformedOutput`.  The listed examples behave as the spec
states; additionally `"12a,5"` parses as `(12, 5)` and a part with leading
Unicode whitespace such as `"100, 200"` (NBSP) parses as `(100, 200)`. -/
theorem coords_parse_characterization :
    (∀ cs : List Char,
      (∃ p, Part000.getCurrentCoords cs = .ok p) ↔
        (∃ a b, splitComma cs = [a, b] ∧ parseIntAccepts a = true ∧ parseIntAccepts b = true))
    ∧ (∀ cs : List Char,
      (∃ p, Part000.getCurrentCoords cs = .ok p) ∨
        Part000.getCurrentCoords cs = .error .malformedOutput)
    ∧ (∀ cs : List Char, MainTs.getCurrentCoords cs = (Part000.getCurrentCoords cs).toOption)
    ∧ Part000.getCurrentCoords "100,200".toList = .ok ⟨100, 200⟩
    ∧ Part000.getCurrentCoords "100".toList = .error .malformedOutput
    ∧ Part000.getCurrentCoords "100,".toList = .error .malformedOutput
    ∧ Part000.getCurrentCoords "abc,200".toList = .error .malformedOutput
    ∧ Part000.getCurrentCoords "".toList = .error .malformedOutput
    ∧ Part000.getCurrentCoords "12a,5".toList = .ok ⟨12, 5⟩
    ∧ Part000.getCurrentCoords "100, 200".toList = .ok ⟨100, 200⟩ := by
  refine ⟨?_, ?_, ?_, by decide, by decide, by decide, by decide, by decide, by decide,
    by decide⟩
  · intro cs
    rw [← parsePoint_some_iff_accepts]
    exact ⟨fun ⟨p, hp⟩ => ⟨p, (Part000.getCurrentCoords_ok_iff cs p).mp hp⟩,
      fun ⟨p, hp⟩ => ⟨p, (Part000.getCurrentCoords_ok_iff cs p).mpr hp⟩⟩
  · intro cs
    cases h : parsePoint cs with
    | none => exact .inr ((Part000.getCurrentCoords_error_iff cs).mpr h)
    | some p => exact .inl ⟨p, (Part000.getCurrentCoords_ok_iff cs p).mpr h⟩
  · intro cs
    unfold MainTs.getCurrentCoords Part000.getCurrentCoords
    cases parsePoint cs <;> rfl

/-- Counterexample to claim C7 as stated: in `src/main.ts` the SIGINT
listener is only registered after the initial probe, the initial click and
`setInterval`, so an interrupt delivered while still Initializing hits the
runtime's default signal handling and the process dies with a signal status,
not exit code 0. -/
theorem sigint_initializing_counterexample :
    MainTs.sigintListenerInstalled .initializing = false
    ∧ MainTs.sigintDelivery .initializing = .signalDeath
    ∧ MainTs.sigintDelivery .initializing ≠ .exitCode 0 := by
  refine ⟨rfl, rfl, ?_⟩
  intro h
  simp [MainTs.sigintDelivery, MainTs.sigintListenerInstalled] at h

/-- Claim C7 (amended): in `src/unnamed/part_000` the SIGINT listener is
registered before initialization, so a manual interrupt delivered in either
phase exits 0; its shutdown path is idempotent (`stopInterval` always leaves
the timer cleared, clearing twice equals clearing once, a second interrupt
is the same safe no-op).  In `src/main.ts` the handler body likewise clears
the timer and exits 0 and an interrupt while Running exits 0, but the
listener is only registered after initialization, so an interrupt during
Initializing kills the process with a signal status instead. -/
theorem sigint_stop_idempotent :
    (∀ s : Option Nat, Part000.stopInterval s = none)
    ∧ (∀ s : Option Nat, Part000.stopInterval (Part000.stopInterval s) = Part000.stopInterval s)
    ∧ (∀ s : Option Nat, (Part000.sigintOnce s).exitCode = 0 ∧ (Part000.sigintOnce s).timer = none)
    ∧ (∀ s : Option Nat, Part000.sigintOnce ((Part000.sigintOnce s).timer) = Part000.sigintOnce s)
    ∧ (∀ i : Nat, MainTs.sigintHandler i = ⟨none, 0⟩)
    ∧ (∀ ph : Phase, Part000.sigintListenerInstalled ph = true
        ∧ Part000.sigintDelivery ph = .exitCode 0)
    ∧ MainTs.sigintListenerInstalled .running = true
    ∧ MainTs.sigintDelivery .running = .exitCode 0
    ∧ MainTs.sigintListenerInstalled .initializing = false
    ∧ MainTs.sigintDelivery .initializing = .signalDeath := by
  refine ⟨?_, ?_, ?_, ?_, ?_, ?_, rfl, rfl, rfl, rfl⟩
  · intro s; cases s <;> rfl
  · intro s; cases s <;> rfl
  · intro s; cases s <;> exact ⟨rfl, rfl⟩
  · intro s; cases s <;> rfl
  · intro i; rfl
  · intro ph; cases ph <;> exact ⟨rfl, rfl⟩

/-- Counterexample to claim C8 as stated: the shell variant's click interval
is 0.001 seconds, i.e. 1 millisecond, not 100 milliseconds. -/
theorem sh_interval_counterexample :
    Sh.INTERVAL_MS = 1 ∧ Sh.INTERVAL_MS ≠ 100 := by
  constructor <;> norm_num [Sh.INTERVAL_MS, Sh.INTERVAL]

/-- Claim C8 (amended): both TypeScript variants default the click interval
to 100 ms; the shell variant defaults it to 0.001 seconds (1 ms); the
movement tolerance defaults to 10 units in all three variants. -/
theorem constants_defaults :
    MainTs.INTERVAL_MS = 100 ∧ Part000.INTERVAL_MS = 100
    ∧ Sh.INTERVAL = 1 / 1000 ∧ Sh.INTERVAL_MS = 1
    ∧ MainTs.TOLERANCE = 10 ∧ Part000.TOLERANCE = 10 ∧ Sh.TOLERANCE = 10 := by
  refine ⟨rfl, rfl, rfl, ?_, rfl, rfl, rfl⟩
  norm_num [Sh.INTERVAL_MS, Sh.INTERVAL]

/-- Claim C9: for the same last-accepted coordinate, probe outcome and click
outcome, the interval callback of `src/main.ts` and `handleIntervalTick` of
`src/unnamed/part_000` (as read by its driver) reach the same decision:
clean stop on excess movement, fatal exit on probe/click failure, or click
and adopt the probed coordinate. -/
theorem tick_variants_equivalent (prev : Point) (probe : Except CliclickError Point)
    (clickRes : Except CliclickError Unit) :
    MainTs.decision prev probe.toOption (isOkClick clickRes) =
      Part000.decision prev probe clickRes := by
  have htol : MainTs.TOLERANCE = Part000.TOLERANCE := rfl
  cases probe with
  | error e => cases clickRes <;> rfl
  | ok c =>
    cases hx : exceedsTolerance prev c Part000.TOLERANCE with
    | true =>
      cases clickRes <;>
        simp [MainTs.decision, Part000.decision, MainTs.tick, Part000.handleIntervalTick,
          Except.toOption, isOkClick, htol, hx]
    | false =>
      cases clickRes <;>
        simp [MainTs.decision, Part000.decision, MainTs.tick, Part000.handleIntervalTick,
          Except.toOption, isOkClick, htol, hx]

/-- Claim C10: `handleIntervalTick` returns `null` exactly when the freshly
probed coordinate exceeds the tolerance (and then no click is issued); when
it returns a coordinate, that value is exactly the probed one and a click
was successfully issued before returning. -/
theorem handleIntervalTick_null_iff (prev : Point) (probe : Except CliclickError Point)
    (clickRes : Except CliclickError Unit) :
    ((Part000.handleIntervalTick prev probe clickRes).result = .ok none ↔
      ∃ c, probe = .ok c ∧ exceedsTolerance prev c Part000.TOLERANCE = true)
    ∧ ((Part000.handleIntervalTick prev probe clickRes).result = .ok none →
        (Part000.handleIntervalTick prev probe clickRes).clicked = false)
    ∧ (∀ p, (Part000.handleIntervalTick prev probe clickRes).result = .ok (some p) →
        probe = .ok p ∧ (Part000.handleIntervalTick prev probe clickRes).clicked = true) := by
  rcases Part000.handleIntervalTick_cases prev probe clickRes with
    ⟨e, hp, htk⟩ | ⟨c, hp, hx, htk⟩ | ⟨c, e, hp, hx, hc, htk⟩ | ⟨c, hp, hx, hc, htk⟩ <;>
    subst hp <;> rw [htk] <;>
    refine ⟨?_, ?_, ?_⟩
  · simp
  · simp
  · simp
  · simp [hx]
  · simp
  · simp
  · simp [hx]
  · simp
  · simp
  · simp [hx]
  · simp
  · intro p hp'
    simp only [Except.ok.injEq, Option.some.injEq] at hp'
    subst hp'
    exact ⟨rfl, rfl⟩

/-- Witness for C10: with `previous = (0,0)`, a probe of `(20,0)` (movement
beyond the tolerance) and a successful click available, the tick returns
`null` and issues no click. -/
theorem handleIntervalTick_null_iff_witness :
    (Part000.handleIntervalTick ⟨0, 0⟩ (.ok ⟨20, 0⟩) (.ok ())).result = .ok none ∧
    (Part000.handleIntervalTick ⟨0, 0⟩ (.ok ⟨20, 0⟩) (.ok ())).clicked = false :=
  ⟨(handleIntervalTick_null_iff ⟨0, 0⟩ (.ok ⟨20, 0⟩) (.ok ())).1.mpr
      ⟨⟨20, 0⟩, rfl, by decide⟩,
    (handleIntervalTick_null_iff ⟨0, 0⟩ (.ok ⟨20, 0⟩) (.ok ())).2.1
      ((handleIntervalTick_null_iff ⟨0, 0⟩ (.ok ⟨20, 0⟩) (.ok ())).1.mpr
        ⟨⟨20, 0⟩, rfl, by decide⟩)⟩

/-- Counterexample to claim C3 as stated: in the shell variant a run whose
initial click fails and whose first loop click fails keeps clicking (two
click commands are issued), and the mid-loop probe failure on the second
iteration ends the process with exit status 0, not a non-zero code. -/
theorem sh_failure_exit_zero_counterexample :
    Sh.run (some ⟨0, 0⟩) false [⟨some ⟨0, 0⟩, false⟩, ⟨none, true⟩] =
      .exited 0 2 (some ⟨0, 0⟩)
    ∧ ∀ (clicks : Nat) (la : Option Point),
        Sh.run (some ⟨0, 0⟩) false [⟨some ⟨0, 0⟩, false⟩, ⟨none, true⟩] ≠
          .exited 1 clicks la := by
  refine ⟨by decide, ?_⟩
  intro clicks la h
  rw [show Sh.run (some ⟨0, 0⟩) false [⟨some ⟨0, 0⟩, false⟩, ⟨none, true⟩] =
      .exited 0 2 (some ⟨0, 0⟩) from by decide] at h
  simp at h

/-- Claim C3 (amended): in both TypeScript variants every failure during
initialization or the running loop — failed initial probe, failed initial
click, failed tick probe, failed tick click — ends the process with exit
code 1 immediately: the click count is frozen, the remaining ticks are never
consumed, and exit code 0 arises only from a movement-triggered stop after a
fully successful prefix.  (The shell variant does not satisfy this: see the
counterexample.) -/
theorem ts_failures_fatal_nonzero :
    (∀ (e : CliclickError) (ic : Except CliclickError Unit) (ts : List Part000.TickInput),
      Part000.run (.error e) ic ts = .exited 1 0 none)
    ∧ (∀ (p0 : Point) (e : CliclickError) (ts : List Part000.TickInput),
      Part000.run (.ok p0) (.error e) ts = .exited 1 0 (some p0))
    ∧ (∀ (prev : Point) (t : Part000.TickInput) (ts : List Part000.TickInput) (clicks : Nat),
      ((∃ e, t.probe = .error e) ∨
        (∃ c e, t.probe = .ok c ∧ exceedsTolerance prev c Part000.TOLERANCE = false ∧
          t.clickRes = .error e)) →
      Part000.loop prev (t :: ts) clicks = .exited 1 clicks (some prev))
    ∧ (∀ (ts : List Part000.TickInput) (prev : Point) (clicks n : Nat) (la : Option Point),
      Part000.loop prev ts clicks = .exited 0 n la →
      ∃ pre t suf p c, ts = pre ++ t :: suf ∧ Part000.loop prev pre clicks = .running p n ∧
        t.probe = .ok c ∧ exceedsTolerance p c Part000.TOLERANCE = true ∧ la = some p)
    ∧ (∀ (ic : Bool) (ts : List MainTs.TickInput), MainTs.run none ic ts = .exited 1 0 none)
    ∧ (∀ (p0 : Point) (ts : List MainTs.TickInput),
      MainTs.run (some p0) false ts = .exited 1 0 (some p0))
    ∧ (∀ (prev : Point) (t : MainTs.TickInput) (ts : List MainTs.TickInput) (clicks : Nat),
      (t.probe = none ∨
        (∃ c, t.probe = some c ∧ exceedsTolerance prev c MainTs.TOLERANCE = false ∧
          t.clickOk = false)) →
      MainTs.loop prev (t :: ts) clicks = .exited 1 clicks (some prev))
    ∧ (∀ (ts : List MainTs.TickInput) (prev : Point) (clicks n : Nat) (la : Option Point),
      MainTs.loop prev ts clicks = .exited 0 n la →
      ∃ pre t suf p c, ts = pre ++ t :: suf ∧ MainTs.loop prev pre clicks = .running p n ∧
        t.probe = some c ∧ exceedsTolerance p c MainTs.TOLERANCE = true ∧ la = some p) := by
  refine ⟨?_, ?_, Part000.loop_fail_step, Part000.loop_exit_zero, ?_, ?_,
    MainTs.loop_fail_step_ts, MainTs.loop_exit_zero_ts⟩
  · intro e ic ts; rfl
  · intro p0 e ts; rfl
  · intro ic ts; rfl
  · intro p0 ts; rfl

/-- Witness for C3's conditional conjuncts at concrete inputs: a probe-error
tick and a click-error-free movement stop in each TypeScript variant. -/
theorem ts_failures_fatal_nonzero_witness :
    Part000.loop ⟨0, 0⟩ [⟨Except.error .notFound, Except.ok ()⟩] 1 =
      .exited 1 1 (some ⟨0, 0⟩)
    ∧ (∃ pre t suf p c,
        ([⟨Except.ok ⟨100, 0⟩, Except.ok ()⟩] : List Part000.TickInput) = pre ++ t :: suf ∧
        Part000.loop ⟨0, 0⟩ pre 1 = .running p 1 ∧ t.probe = .ok c ∧
        exceedsTolerance p c Part000.TOLERANCE = true ∧ (some (⟨0, 0⟩ : Point)) = some p)
    ∧ MainTs.loop ⟨0, 0⟩ [⟨none, true⟩] 1 = .exited 1 1 (some ⟨0, 0⟩)
    ∧ (∃ pre t suf p c,
        ([⟨some ⟨100, 0⟩, true⟩] : List MainTs.TickInput) = pre ++ t :: suf ∧
        MainTs.loop ⟨0, 0⟩ pre 1 = .running p 1 ∧ t.probe = some c ∧
        exceedsTolerance p c MainTs.TOLERANCE = true ∧ (some (⟨0, 0⟩ : Point)) = some p) :=
  ⟨ts_failures_fatal_nonzero.2.2.1 ⟨0, 0⟩ ⟨Except.error .notFound, Except.ok ()⟩ [] 1
      (.inl ⟨.notFound, rfl⟩),
   ts_failures_fatal_nonzero.2.2.2.1 [⟨Except.ok ⟨100, 0⟩, Except.ok ()⟩] ⟨0, 0⟩ 1 1
      (some ⟨0, 0⟩) (by decide),
   ts_failures_fatal_nonzero.2.2.2.2.2.2.1 ⟨0, 0⟩ ⟨none, true⟩ [] 1 (.inl rfl),
   ts_failures_fatal_nonzero.2.2.2.2.2.2.2 [⟨some ⟨100, 0⟩, true⟩] ⟨0, 0⟩ 1 1
      (some ⟨0, 0⟩) (by decide)⟩

/-- Claim C4: a tick whose probed coordinate exceeds the tolerance logs both
the previous and the current coordinates, issues no click on that tick,
stops the loop with exit code 0 and a frozen click count — in both
TypeScript variants — and in the concrete Scenario B (initial probe
`(500,500)`, ticks probing `(500,500)`, `(500,500)`, `(515,500)`, tolerance
10) the process exits 0 with 3 total clicks, i.e. exactly 2 clicks after
the initial one. -/
theorem movement_stop_behavior :
    (∀ (prev c : Point) (clickRes : Except CliclickError Unit)
        (ts : List Part000.TickInput) (clicks : Nat),
      exceedsTolerance prev c Part000.TOLERANCE = true →
      Part000.handleIntervalTick prev (.ok c) clickRes =
        ⟨.ok none, false, [.moved prev c]⟩
      ∧ Part000.loop prev (⟨.ok c, clickRes⟩ :: ts) clicks = .exited 0 clicks (some prev))
    ∧ (∀ (prev c : Point) (ck : Bool) (ts : List MainTs.TickInput) (clicks : Nat),
      exceedsTolerance prev c MainTs.TOLERANCE = true →
      MainTs.tick prev (some c) ck = (.exitCode 0, [.moved prev c])
      ∧ MainTs.loop prev (⟨some c, ck⟩ :: ts) clicks = .exited 0 clicks (some prev))
    ∧ Part000.run (.ok ⟨500, 500⟩) (.ok ())
        [⟨.ok ⟨500, 500⟩, .ok ()⟩, ⟨.ok ⟨500, 500⟩, .ok ()⟩, ⟨.ok ⟨515, 500⟩, .ok ()⟩]
        = .exited 0 3 (some ⟨500, 500⟩)
    ∧ MainTs.run (some ⟨500, 500⟩) true
        [⟨some ⟨500, 500⟩, true⟩, ⟨some ⟨500, 500⟩, true⟩, ⟨some ⟨515, 500⟩, true⟩]
        = .exited 0 3 (some ⟨500, 500⟩) := by
  refine ⟨?_, ?_, by decide, by decide⟩
  · intro prev c clickRes ts clicks hx
    exact ⟨by simp [Part000.handleIntervalTick, hx],
      Part000.loop_stop_step prev ⟨.ok c, clickRes⟩ ts clicks c rfl hx⟩
  · intro prev c ck ts clicks hx
    exact ⟨by simp [MainTs.tick, hx],
      MainTs.loop_stop_step_ts prev ⟨some c, ck⟩ ts clicks c rfl hx⟩

/-- Witness for C4's conditional conjuncts: a movement-exceeding tick at
`previous = (0,0)`, probe `(20,0)`. -/
theorem movement_stop_behavior_witness :
    (Part000.handleIntervalTick ⟨0, 0⟩ (.ok ⟨20, 0⟩) (.ok ()) =
        ⟨.ok none, false, [.moved ⟨0, 0⟩ ⟨20, 0⟩]⟩
      ∧ Part000.loop ⟨0, 0⟩ [⟨Except.ok ⟨20, 0⟩, Except.ok ()⟩] 1 =
          .exited 0 1 (some ⟨0, 0⟩))
    ∧ (MainTs.tick ⟨0, 0⟩ (some ⟨20, 0⟩) true = (.exitCode 0, [.moved ⟨0, 0⟩ ⟨20, 0⟩])
      ∧ MainTs.loop ⟨0, 0⟩ [⟨some ⟨20, 0⟩, true⟩] 1 = .exited 0 1 (some ⟨0, 0⟩)) :=
  ⟨movement_stop_behavior.1 ⟨0, 0⟩ ⟨20, 0⟩ (.ok ()) [] 1 (by decide),
   movement_stop_behavior.2.1 ⟨0, 0⟩ ⟨20, 0⟩ true [] 1 (by decide)⟩

/-- Claim C5: in every variant, while the loop is running the last-accepted
coordinate equals the coordinate probed by the most recently completed
successful tick (or the initial probe before any tick has run), and a tick
that stops or fails leaves it unchanged (the exit outcome carries the
pre-tick coordinate and a frozen click count). -/
theorem last_accepted_invariant :
    (∀ (ts : List Part000.TickInput) (prev : Point) (clicks : Nat) (p : Point) (n : Nat),
      Part000.loop prev ts clicks = .running p n →
      (ts = [] ∧ p = prev ∧ n = clicks) ∨
      ∃ pre t, ts = pre ++ [t] ∧ t.probe = .ok p ∧ n = clicks + ts.length)
    ∧ (∀ (prev : Point) (t : Part000.TickInput) (ts : List Part000.TickInput) (clicks : Nat),
      (∀ q, (Part000.handleIntervalTick prev t.probe t.clickRes).result ≠ .ok (some q)) →
      ∃ code, Part000.loop prev (t :: ts) clicks = .exited code clicks (some prev))
    ∧ (∀ (ts : List MainTs.TickInput) (prev : Point) (clicks : Nat) (p : Point) (n : Nat),
      MainTs.loop prev ts clicks = .running p n →
      (ts = [] ∧ p = prev ∧ n = clicks) ∨
      ∃ pre t, ts = pre ++ [t] ∧ t.probe = some p ∧ n = clicks + ts.length)
    ∧ (∀ (prev : Point) (t : MainTs.TickInput) (ts : List MainTs.TickInput) (clicks : Nat),
      (∀ q, (MainTs.tick prev t.probe t.clickOk).1 ≠ .cont q) →
      ∃ code, MainTs.loop prev (t :: ts) clicks = .exited code clicks (some prev))
    ∧ (∀ (ts : List Sh.TickInput) (prev : Point) (clicks : Nat) (p : Point) (n : Nat),
      Sh.loop prev ts clicks = .running p n →
      (ts = [] ∧ p = prev ∧ n = clicks) ∨
      ∃ pre t, ts = pre ++ [t] ∧ t.probe = some p ∧ n = clicks + ts.length)
    ∧ (∀ (prev : Point) (t : Sh.TickInput) (ts : List Sh.TickInput) (clicks : Nat),
      (t.probe = none ∨ ∃ c, t.probe = some c ∧ Sh.exceeds prev c = true) →
      Sh.loop prev (t :: ts) clicks = .exited 0 clicks (some prev)) := by
  refine ⟨Part000.loop_running, ?_, MainTs.loop_running_ts, ?_, Sh.loop_running_sh,
    Sh.loop_stop_step_sh⟩
  · intro prev t ts clicks hnq
    rcases Part000.handleIntervalTick_cases prev t.probe t.clickRes with
      ⟨e, hp, htk⟩ | ⟨c, hp, hx, htk⟩ | ⟨c, e, hp, hx, hc, htk⟩ | ⟨c, hp, hx, hc, htk⟩
    · exact ⟨1, Part000.loop_fail_step prev t ts clicks (.inl ⟨e, hp⟩)⟩
    · exact ⟨0, Part000.loop_stop_step prev t ts clicks c hp hx⟩
    · exact ⟨1, Part000.loop_fail_step prev t ts clicks (.inr ⟨c, e, hp, hx, hc⟩)⟩
    · exact absurd (by simp [htk]) (hnq c)
  · intro prev t ts clicks hnq
    rcases MainTs.tick_cases prev t.probe t.clickOk with
      ⟨hp, htk⟩ | ⟨c, hp, hx, htk⟩ | ⟨c, hp, hx, hc, htk⟩ | ⟨c, hp, hx, hc, htk⟩
    · exact ⟨1, MainTs.loop_fail_step_ts prev t ts clicks (.inl hp)⟩
    · exact ⟨0, MainTs.loop_stop_step_ts prev t ts clicks c hp hx⟩
    · exact absurd (by simp [htk]) (hnq c)
    · exact ⟨1, MainTs.loop_fail_step_ts prev t ts clicks (.inr ⟨c, hp, hx, hc⟩)⟩

/-- Witness for C5 at concrete inputs: one successful tick probing `(1,1)`
(the running state holds exactly that coordinate), and a probe-failing shell
iteration that freezes the state. -/
theorem last_accepted_invariant_witness :
    ((([⟨Except.ok ⟨1, 1⟩, Except.ok ()⟩] : List Part000.TickInput) = [] ∧
        (⟨1, 1⟩ : Point) = ⟨0, 0⟩ ∧ 2 = 1) ∨
      ∃ pre t, ([⟨Except.ok ⟨1, 1⟩, Except.ok ()⟩] : List Part000.TickInput) = pre ++ [t] ∧
        t.probe = .ok ⟨1, 1⟩ ∧
        2 = 1 + ([⟨Except.ok ⟨1, 1⟩, Except.ok ()⟩] : List Part000.TickInput).length)
    ∧ Sh.loop ⟨0, 0⟩ [⟨none, true⟩] 1 = .exited 0 1 (some ⟨0, 0⟩) :=
  ⟨last_accepted_invariant.1 [⟨Except.ok ⟨1, 1⟩, Except.ok ()⟩] ⟨0, 0⟩ 1 ⟨1, 1⟩ 2 (by decide),
   last_accepted_invariant.2.2.2.2.2 ⟨0, 0⟩ ⟨none, true⟩ [] 1 (.inl rfl)⟩

/-- Claim C6: once a tick leads to a terminal state (clean stop or failure),
the timer is cancelled: the loop's outcome does not depend on any tick after
that one (no further ticks fire), and the click count is frozen at its
pre-tick value (no further clicks are issued). -/
theorem no_ticks_after_terminal :
    (∀ (prev : Point) (t : Part000.TickInput) (clicks : Nat),
      (∀ q, (Part000.handleIntervalTick prev t.probe t.clickRes).result ≠ .ok (some q)) →
      ∀ (ts ts' : List Part000.TickInput),
        Part000.loop prev (t :: ts) clicks = Part000.loop prev (t :: ts') clicks
        ∧ ∃ code, Part000.loop prev (t :: ts) clicks = .exited code clicks (some prev))
    ∧ (∀ (prev : Point) (t : MainTs.TickInput) (clicks : Nat),
      (∀ q, (MainTs.tick prev t.probe t.clickOk).1 ≠ .cont q) →
      ∀ (ts ts' : List MainTs.TickInput),
        MainTs.loop prev (t :: ts) clicks = MainTs.loop prev (t :: ts') clicks
        ∧ ∃ code, MainTs.loop prev (t :: ts) clicks = .exited code clicks (some prev)) := by
  constructor
  · intro prev t clicks hnq ts ts'
    rcases Part000.handleIntervalTick_cases prev t.probe t.clickRes with
      ⟨e, hp, htk⟩ | ⟨c, hp, hx, htk⟩ | ⟨c, e, hp, hx, hc, htk⟩ | ⟨c, hp, hx, hc, htk⟩
    · rw [Part000.loop_fail_step prev t ts clicks (.inl ⟨e, hp⟩),
        Part000.loop_fail_step prev t ts' clicks (.inl ⟨e, hp⟩)]
      exact ⟨rfl, 1, rfl⟩
    · rw [Part000.loop_stop_step prev t ts clicks c hp hx,
        Part000.loop_stop_step prev t ts' clicks c hp hx]
      exact ⟨rfl, 0, rfl⟩
    · rw [Part000.loop_fail_step prev t ts clicks (.inr ⟨c, e, hp, hx, hc⟩),
        Part000.loop_fail_step prev t ts' clicks (.inr ⟨c, e, hp, hx, hc⟩)]
      exact ⟨rfl, 1, rfl⟩
    · exact absurd (by simp [htk]) (hnq c)
  · intro prev t clicks hnq ts ts'
    rcases MainTs.tick_cases prev t.probe t.clickOk with
      ⟨hp, htk⟩ | ⟨c, hp, hx, htk⟩ | ⟨c, hp, hx, hc, htk⟩ | ⟨c, hp, hx, hc, htk⟩
    · rw [MainTs.loop_fail_step_ts prev t ts clicks (.inl hp),
        MainTs.loop_fail_step_ts prev t ts' clicks (.inl hp)]
      exact ⟨rfl, 1, rfl⟩
    · rw [MainTs.loop_stop_step_ts prev t ts clicks c hp hx,
        MainTs.loop_stop_step_ts prev t ts' clicks c hp hx]
      exact ⟨rfl, 0, rfl⟩
    · exact absurd (by simp [htk]) (hnq c)
    · rw [MainTs.loop_fail_step_ts prev t ts clicks (.inr ⟨c, hp, hx, hc⟩),
        MainTs.loop_fail_step_ts prev t ts' clicks (.inr ⟨c, hp, hx, hc⟩)]
      exact ⟨rfl, 1, rfl⟩

/-- Witness for C6 at concrete inputs: a probe-failing tick in each
TypeScript variant, with two different tick-list suffixes. -/
theorem no_ticks_after_terminal_witness :
    (Part000.loop ⟨0, 0⟩ [⟨Except.error .notFound, Except.ok ()⟩] 1 =
        Part000.loop ⟨0, 0⟩
          (⟨Except.error .notFound, Except.ok ()⟩ :: [⟨Except.ok ⟨0, 0⟩, Except.ok ()⟩]) 1
      ∧ ∃ code, Part000.loop ⟨0, 0⟩ [⟨Except.error .notFound, Except.ok ()⟩] 1 =
          .exited code 1 (some ⟨0, 0⟩))
    ∧ (MainTs.loop ⟨0, 0⟩ [⟨none, true⟩] 1 =
        MainTs.loop ⟨0, 0⟩ (⟨none, true⟩ :: [⟨some ⟨0, 0⟩, true⟩]) 1
      ∧ ∃ code, MainTs.loop ⟨0, 0⟩ [⟨none, true⟩] 1 = .exited code 1 (some ⟨0, 0⟩)) :=
  ⟨no_ticks_after_terminal.1 ⟨0, 0⟩ ⟨Except.error .notFound, Except.ok ()⟩ 1
      (fun q h => by simp [Part000.handleIntervalTick] at h) [] [⟨Except.ok ⟨0, 0⟩, Except.ok ()⟩],
   no_ticks_after_terminal.2 ⟨0, 0⟩ ⟨none, true⟩ 1
      (fun q h => by simp [MainTs.tick] at h) [] [⟨some ⟨0, 0⟩, true⟩]⟩
